import Mathlib

/-!
Verification of the orbital-mechanics core of the space-simulation repository
(src/main.js): the orbit path builder `createOrbit` and the per-frame position
sampler `updateSystemPosition`, shallowly embedded over the real numbers.
The rendering-library primitives the source calls (THREE.EllipseCurve.getPoint,
Curve.getPoints, BufferGeometry.rotateX / rotateY) are embedded by their
standard mathematical semantics with the arguments the source passes.
-/

namespace SpaceSim

noncomputable section

/-- A 3D point, as stored in a BufferGeometry position attribute. -/
structure Vec3 where
  x : ℝ
  y : ℝ
  z : ℝ

/-- Source `degToRad` (src/main.js line 35): converts degrees to radians. -/
def degToRad (number : ℝ) : ℝ :=
  number * (Real.pi / 180)

/-- THREE.EllipseCurve.getPoint for the arguments the source passes
(center (0,0), semi-axes `a` and `b`, start angle 0, end angle 2π,
counter-clockwise, in-plane rotation `rot`), at curve parameter `t`:
the angle is `t * 2π`, the raw point is `(a cos θ, b sin θ)`, and the
in-plane rotation by `rot` is then applied.  The z-coordinate 0 is the one
`BufferGeometry.setFromPoints` fills in for 2D points. -/
def ellipseGetPoint (a b rot t : ℝ) : Vec3 :=
  ⟨a * Real.cos (t * (2 * Real.pi)) * Real.cos rot -
     b * Real.sin (t * (2 * Real.pi)) * Real.sin rot,
   a * Real.cos (t * (2 * Real.pi)) * Real.sin rot +
     b * Real.sin (t * (2 * Real.pi)) * Real.cos rot,
   0⟩

/-- THREE.Curve.getPoints(divisions): the `divisions + 1` points at parameters
`d / divisions` for `d = 0, …, divisions`. -/
def ellipseGetPoints (a b rot : ℝ) (divisions : ℕ) : List Vec3 :=
  (List.range (divisions + 1)).map
    (fun (d : ℕ) => ellipseGetPoint a b rot ((d : ℝ) / (divisions : ℝ)))

/-- THREE.BufferGeometry.rotateX(θ) applied to one stored point:
rotation about the X axis. -/
def rotateX (θ : ℝ) (v : Vec3) : Vec3 :=
  ⟨v.x,
   v.y * Real.cos θ - v.z * Real.sin θ,
   v.y * Real.sin θ + v.z * Real.cos θ⟩

/-- THREE.BufferGeometry.rotateY(θ) applied to one stored point:
rotation about the Y axis. -/
def rotateY (θ : ℝ) (v : Vec3) : Vec3 :=
  ⟨v.x * Real.cos θ + v.z * Real.sin θ,
   v.y,
   -v.x * Real.sin θ + v.z * Real.cos θ⟩

/-- Source `createOrbit` (src/main.js lines 47–86), generalized over the
`getPoints` divisions argument (the source passes 50000 at line 66):
compute `b = a * sqrt(1 - e*e)`, upscale `a` and `b` by 100, sample the
ellipse curve (in-plane rotation `degToRad aP`, counter-clockwise, angles
0 to 2π), then rotate the whole point set about X by
`degToRad inclination - π/2` and about Y by `degToRad lAN`. -/
def createOrbit (a e inclination lAN aP : ℝ) (divisions : ℕ) : List Vec3 :=
  let b := a * Real.sqrt (1 - e * e)
  let a2 := a * 100
  let b2 := b * 100
  let orbitPoints := ellipseGetPoints a2 b2 (degToRad aP) divisions
  (orbitPoints.map (rotateX (degToRad inclination - Real.pi / 2))).map (rotateY (degToRad lAN))

/-- The divisions argument the source passes to `curve.getPoints`
(src/main.js line 66). -/
def sourceDivisions : ℕ := 50000

/-- Spec §4.1, transcribed from its words for the refinement claim:
semi-minor axis `b = a * sqrt(1 - e*e)`; both axes scaled by 100; sample
points on the ellipse with semi-axes `a`, `b` rotated in-plane by `aP` in
radians, traversed counter-clockwise by angle `θ = 2π·i/n` from 0 to 2π;
embed in the XY plane (z = 0); rotate the whole set about X by
`(inclination in radians − π/2)`, then about Y by `lAN` in radians, with
nothing afterward. -/
def buildOrbitSpec (a e inclination lAN aP : ℝ) (n : ℕ) : List Vec3 :=
  let b := a * Real.sqrt (1 - e * e)
  let A := 100 * a
  let B := 100 * b
  (List.range (n + 1)).map (fun (i : ℕ) =>
    rotateY (degToRad lAN) (rotateX (degToRad inclination - Real.pi / 2)
      ⟨A * Real.cos (2 * Real.pi * (i : ℝ) / (n : ℝ)) * Real.cos (degToRad aP) -
         B * Real.sin (2 * Real.pi * (i : ℝ) / (n : ℝ)) * Real.sin (degToRad aP),
       A * Real.cos (2 * Real.pi * (i : ℝ) / (n : ℝ)) * Real.sin (degToRad aP) +
         B * Real.sin (2 * Real.pi * (i : ℝ) / (n : ℝ)) * Real.cos (degToRad aP),
       0⟩))

/-- JavaScript truncation toward zero, on reals. -/
def jsTrunc (x : ℝ) : ℤ :=
  if 0 ≤ x then ⌊x⌋ else ⌈x⌉

/-- The JavaScript `%` remainder operator on reals: sign follows the
dividend, `x % y = x - y * trunc(x / y)`. -/
def jsMod (x y : ℝ) : ℝ :=
  x - y * (jsTrunc (x / y) : ℝ)

/-- Source line 170: `timeConversionFactor = (2π / (orbitalPeriod * 86400)) * 300`. -/
def timeConversionFactor (orbitalPeriod : ℝ) : ℝ :=
  (2 * Real.pi / (orbitalPeriod * 86400)) * 300

/-- Source line 179: `pointIndex = Math.floor((time % 1) * (position.count - 1))`
where `time = currentTimeMs * timeConversionFactor` (line 173) and
`position.count` is the number of stored orbit points. -/
def pointIndex (count : ℕ) (orbitalPeriod t : ℝ) : ℤ :=
  ⌊jsMod (t * timeConversionFactor orbitalPeriod) 1 * ((count : ℝ) - 1)⌋

/-- Read the point at an index of the stored point sequence
(source lines 182–185, `position.getX/getY/getZ(pointIndex)`). -/
def getPoint3 (points : List Vec3) (i : ℤ) : Vec3 :=
  points.getD i.toNat ⟨0, 0, 0⟩

/-- Mutable state of a rendered mesh (planet or ring): its position and its
Euler rotation angles. -/
structure MeshState where
  position : Vec3
  rotX : ℝ
  rotY : ℝ
  rotZ : ℝ

/-- The `system` record `createPlanet` returns (src/main.js lines 128, 133):
the planet mesh, the orbit point sequence, and the optional ring mesh. -/
structure SystemState where
  planet : MeshState
  orbit : List Vec3
  ring : Option MeshState

/-- Source `updateSystemPosition` (src/main.js lines 167–199), with the
`performance.now()` reading passed in as `t`: recompute the point index from
absolute time, set the planet position to that stored point, accumulate the
spin increment `((2π / rotationPeriod) * 0.1) * (π/180)` on the planet's
y-rotation, and, if a ring exists, copy the position to the ring and
accumulate the same spin increment a second time. -/
def updateSystemPosition (system : SystemState) (orbitalPeriod rotationPeriod t : ℝ) :
    SystemState :=
  let idx := pointIndex system.orbit.length orbitalPeriod t
  let point := getPoint3 system.orbit idx
  let spinInc := (2 * Real.pi) / rotationPeriod * 0.1 * (Real.pi / 180)
  let planet1 : MeshState :=
    { system.planet with position := point, rotY := system.planet.rotY + spinInc }
  match system.ring with
  | none => { system with planet := planet1 }
  | some r =>
      { system with
        planet := { planet1 with rotY := planet1.rotY + spinInc },
        ring := some { r with position := point } }

/-- Source `createOrbit` wrapped in `Except`, mirroring the fact that the
source performs no input validation anywhere in lines 47–86: every input,
including eccentricity ≥ 1, flows straight through and a point list is
returned; no error path exists. -/
def createOrbitChecked (a e inclination lAN aP : ℝ) (divisions : ℕ) :
    Except String (List Vec3) :=
  Except.ok (createOrbit a e inclination lAN aP divisions)

/-- JavaScript Math.sqrt on reals with NaN made explicit: `none` is NaN,
returned exactly when the argument is negative. -/
def jsSqrt (x : ℝ) : Option ℝ :=
  if 0 ≤ x then some (Real.sqrt x) else none

/-- The semi-minor axis computation of src/main.js line 50,
`b = a * Math.sqrt(1 - e*e)`, with NaN tracked: `none` when the sqrt
argument `1 - e*e` is negative, i.e. the stored `b` is NaN and every
sampled y-coordinate `b * sin θ` of the path is NaN. -/
def semiminor (a e : ℝ) : Option ℝ :=
  (jsSqrt (1 - e * e)).map (fun s => a * s)

/-- The origin point, used as a concrete sample value. -/
def p0 : Vec3 := ⟨0, 0, 0⟩

/-- A concrete mesh state at the origin with zero rotation, for instantiations. -/
def mDemo : MeshState := ⟨p0, 0, 0, 0⟩

/-- A concrete ringless system with a two-point orbit, for instantiations. -/
def sDemo : SystemState := ⟨mDemo, [p0, p0], none⟩

/-- A concrete ringed system with a two-point orbit, for instantiations. -/
def sRingDemo : SystemState := ⟨mDemo, [p0, p0], some mDemo⟩

end

lemma jsMod_one_of_nonneg (x : ℝ) (hx : 0 ≤ x) : jsMod x 1 = Int.fract x := by
  unfold jsMod jsTrunc
  rw [div_one, if_pos hx, one_mul, Int.self_sub_floor]

lemma timeConversionFactor_pos (orbitalPeriod : ℝ) (hP : 0 < orbitalPeriod) :
    0 < timeConversionFactor orbitalPeriod := by
  have hpi := Real.pi_pos
  have h1 : (0:ℝ) < orbitalPeriod * 86400 := by positivity
  exact mul_pos (div_pos (by linarith) h1) (by norm_num)

lemma getD_range_map (f : ℕ → Vec3) (n i : ℕ) (hi : i < n + 1) (d : Vec3) :
    ((List.range (n + 1)).map f).getD i d = f i := by
  rw [List.getD_eq_getElem?_getD, List.getElem?_map, List.getElem?_range hi]
  rfl

lemma ellipseGetPoint_one (a b rot : ℝ) :
    ellipseGetPoint a b rot 1 = ellipseGetPoint a b rot 0 := by
  simp [ellipseGetPoint, Real.cos_two_pi, Real.sin_two_pi]

lemma createOrbit_eq_map (a e inclination lAN aP : ℝ) (n : ℕ) :
    createOrbit a e inclination lAN aP n =
      (List.range (n + 1)).map (fun (d : ℕ) =>
        rotateY (degToRad lAN) (rotateX (degToRad inclination - Real.pi / 2)
          (ellipseGetPoint (a * 100) (a * Real.sqrt (1 - e * e) * 100) (degToRad aP)
            ((d : ℝ) / (n : ℝ))))) := by
  unfold createOrbit ellipseGetPoints
  rw [List.map_map, List.map_map]
  rfl

lemma updateSystemPosition_position (s : SystemState) (orbitalPeriod rotationPeriod t : ℝ) :
    (updateSystemPosition s orbitalPeriod rotationPeriod t).planet.position =
      getPoint3 s.orbit (pointIndex s.orbit.length orbitalPeriod t) := by
  cases h : s.ring <;> simp [updateSystemPosition, h]

lemma updateSystemPosition_orbit (s : SystemState) (orbitalPeriod rotationPeriod t : ℝ) :
    (updateSystemPosition s orbitalPeriod rotationPeriod t).orbit = s.orbit := by
  cases h : s.ring <;> simp [updateSystemPosition, h]

/-- Claim C1: for every input with 0 ≤ e < 1 and a > 0, the orbit path built by
`createOrbit` equals the composition of the spec §4.1 steps transcribed in
`buildOrbitSpec`: b = a·sqrt(1−e²), both axes scaled by 100, ellipse points
rotated in-plane by aP in radians traversed counter-clockwise over angle 0 to 2π,
rotated about X by (inclination in radians − π/2), then about Y by lAN in radians,
with nothing afterward. -/
theorem createOrbit_matches_spec (a e inclination lAN aP : ℝ) (n : ℕ)
    (he0 : 0 ≤ e) (he1 : e < 1) (ha : 0 < a) :
    createOrbit a e inclination lAN aP n = buildOrbitSpec a e inclination lAN aP n := by
  rw [createOrbit_eq_map]
  unfold buildOrbitSpec
  refine List.map_congr_left ?_
  intro i _
  have harg : (i : ℝ) / (n : ℝ) * (2 * Real.pi) = 2 * Real.pi * (i : ℝ) / (n : ℝ) := by ring
  simp only [ellipseGetPoint, rotateX, rotateY, Vec3.mk.injEq, harg]
  refine ⟨by ring, by ring, by ring⟩

/-- Witness for C1 at a = 1, e = 0, inclination = 0, lAN = 0, aP = 0, 4 divisions. -/
theorem createOrbit_matches_spec_witness :
    (0:ℝ) ≤ 0 ∧ (0:ℝ) < 1 ∧ (0:ℝ) < 1 ∧
      createOrbit 1 0 0 0 0 4 = buildOrbitSpec 1 0 0 0 0 4 :=
  ⟨le_refl 0, zero_lt_one, zero_lt_one,
    createOrbit_matches_spec 1 0 0 0 0 4 (le_refl 0) zero_lt_one zero_lt_one⟩

/-- Counterexample to claim C4 as stated: with 4 as the requested sample count
the returned path has 5 points, not 4 (the curve sampler returns
divisions + 1 points). -/
theorem createOrbit_count_cex : (createOrbit 1 0 0 0 0 4).length = 5 := by
  rw [createOrbit_eq_map]
  rw [List.length_map, List.length_range]

/-- Claim C4 as amended: for all valid elements (0 ≤ e < 1, a > 0) and any
requested division count n, `createOrbit` returns exactly n + 1 points
(the source's 50000 divisions give 50,001 stored points), and the first and
last returned points coincide exactly (closed curve). -/
theorem createOrbit_count_closed (a e inclination lAN aP : ℝ) (n : ℕ)
    (he0 : 0 ≤ e) (he1 : e < 1) (ha : 0 < a) :
    (createOrbit a e inclination lAN aP n).length = n + 1 ∧
    (createOrbit a e inclination lAN aP n).getD 0 ⟨0, 0, 0⟩ =
      (createOrbit a e inclination lAN aP n).getD n ⟨0, 0, 0⟩ := by
  rw [createOrbit_eq_map]
  constructor
  · rw [List.length_map, List.length_range]
  · rw [getD_range_map _ n 0 (by omega) _, getD_range_map _ n n (by omega) _]
    rcases Nat.eq_zero_or_pos n with hn | hn
    · subst hn
      norm_num
    · have hne : (n : ℝ) ≠ 0 := Nat.cast_ne_zero.mpr hn.ne'
      simp only [Nat.cast_zero, zero_div, div_self hne]
      rw [ellipseGetPoint_one]

/-- Witness for the amended C4 at a = 1, e = 0, zero angles, 4 divisions. -/
theorem createOrbit_count_closed_witness :
    (0:ℝ) ≤ 0 ∧ (0:ℝ) < 1 ∧ (0:ℝ) < 1 ∧
      ((createOrbit 1 0 0 0 0 4).length = 4 + 1 ∧
        (createOrbit 1 0 0 0 0 4).getD 0 ⟨0, 0, 0⟩ =
          (createOrbit 1 0 0 0 0 4).getD 4 ⟨0, 0, 0⟩) :=
  ⟨le_refl 0, zero_lt_one, zero_lt_one,
    createOrbit_count_closed 1 0 0 0 0 4 (le_refl 0) zero_lt_one zero_lt_one⟩

/-- Claim C3: for nonnegative time and positive orbital period the sampled
index equals ⌊(phase mod 1) · (N − 1)⌋ with phase = t · (2π/(P·86400)) · 300,
and it lies in [0, N − 1), so every read of the point sequence is in bounds. -/
theorem pointIndex_formula_inbounds (count : ℕ) (orbitalPeriod t : ℝ)
    (ht : 0 ≤ t) (hP : 0 < orbitalPeriod) (hc : 2 ≤ count) :
    pointIndex count orbitalPeriod t =
      ⌊Int.fract (t * (2 * Real.pi / (orbitalPeriod * 86400) * 300)) * ((count : ℝ) - 1)⌋ ∧
    0 ≤ pointIndex count orbitalPeriod t ∧
    pointIndex count orbitalPeriod t < (count : ℤ) - 1 := by
  have hr : 0 < timeConversionFactor orbitalPeriod := timeConversionFactor_pos _ hP
  have hphase : 0 ≤ t * timeConversionFactor orbitalPeriod := mul_nonneg ht hr.le
  have hform : pointIndex count orbitalPeriod t =
      ⌊Int.fract (t * timeConversionFactor orbitalPeriod) * ((count : ℝ) - 1)⌋ := by
    rw [pointIndex, jsMod_one_of_nonneg _ hphase]
  have hc1 : (0:ℝ) < (count : ℝ) - 1 := by
    have h2 : (2:ℝ) ≤ (count : ℝ) := by exact_mod_cast hc
    linarith
  refine ⟨by simpa only [timeConversionFactor] using hform, ?_, ?_⟩
  · rw [hform]
    exact Int.floor_nonneg.mpr (mul_nonneg (Int.fract_nonneg _) hc1.le)
  · rw [hform]
    have hlt : Int.fract (t * timeConversionFactor orbitalPeriod) * ((count : ℝ) - 1) <
        (count : ℝ) - 1 := by
      nlinarith [Int.fract_lt_one (t * timeConversionFactor orbitalPeriod),
        Int.fract_nonneg (t * timeConversionFactor orbitalPeriod)]
    refine Int.floor_lt.mpr ?_
    push_cast
    exact hlt

/-- Witness for C3 at count = 2, orbital period 1, time 0. -/
theorem pointIndex_formula_inbounds_witness :
    (0:ℝ) ≤ 0 ∧ (0:ℝ) < 1 ∧ 2 ≤ 2 ∧
      (pointIndex 2 1 0 =
        ⌊Int.fract ((0:ℝ) * (2 * Real.pi / ((1:ℝ) * 86400) * 300)) * (((2:ℕ) : ℝ) - 1)⌋ ∧
       0 ≤ pointIndex 2 1 0 ∧ pointIndex 2 1 0 < ((2:ℕ) : ℤ) - 1) :=
  ⟨le_refl 0, zero_lt_one, le_refl 2,
    pointIndex_formula_inbounds 2 1 0 (le_refl 0) zero_lt_one (le_refl 2)⟩

/-- Claim C2: for a fixed timestamp the position written by the update is a
deterministic, stateless function of that time: two systems sharing the same
orbit get the same position regardless of any other state or of the rotation
period, and calling the update twice with the same timestamp yields the same
body position. -/
theorem updatePosition_stateless (s1 s2 : SystemState) (orbitalPeriod rp1 rp2 t : ℝ)
    (horb : s1.orbit = s2.orbit) :
    (updateSystemPosition s1 orbitalPeriod rp1 t).planet.position =
      (updateSystemPosition s2 orbitalPeriod rp2 t).planet.position ∧
    (updateSystemPosition (updateSystemPosition s1 orbitalPeriod rp1 t)
        orbitalPeriod rp1 t).planet.position =
      (updateSystemPosition s1 orbitalPeriod rp1 t).planet.position := by
  constructor
  · rw [updateSystemPosition_position, updateSystemPosition_position, horb]
  · rw [updateSystemPosition_position, updateSystemPosition_position,
      updateSystemPosition_orbit]

/-- Witness for C2 on the concrete ringless demo system. -/
theorem updatePosition_stateless_witness :
    sDemo.orbit = sDemo.orbit ∧
      ((updateSystemPosition sDemo 1 1 0).planet.position =
        (updateSystemPosition sDemo 1 2 0).planet.position ∧
       (updateSystemPosition (updateSystemPosition sDemo 1 1 0) 1 1 0).planet.position =
        (updateSystemPosition sDemo 1 1 0).planet.position) :=
  ⟨rfl, updatePosition_stateless sDemo sDemo 1 1 2 0 rfl⟩

/-- Claim C5: for positive orbital period and nonnegative time, updating at
t and at t + orbitalPeriod·86400/(300·2π) yields the same point index, and
hence the same sampled body position (full-cycle periodicity). -/
theorem updatePosition_periodic (s : SystemState) (orbitalPeriod rotationPeriod t : ℝ)
    (hP : 0 < orbitalPeriod) (ht : 0 ≤ t) :
    pointIndex s.orbit.length orbitalPeriod
        (t + orbitalPeriod * 86400 / (300 * (2 * Real.pi))) =
      pointIndex s.orbit.length orbitalPeriod t ∧
    (updateSystemPosition s orbitalPeriod rotationPeriod
        (t + orbitalPeriod * 86400 / (300 * (2 * Real.pi)))).planet.position =
      (updateSystemPosition s orbitalPeriod rotationPeriod t).planet.position := by
  have hr : 0 < timeConversionFactor orbitalPeriod := timeConversionFactor_pos _ hP
  have hphase : 0 ≤ t * timeConversionFactor orbitalPeriod := mul_nonneg ht hr.le
  have hone : orbitalPeriod * 86400 / (300 * (2 * Real.pi)) *
      timeConversionFactor orbitalPeriod = 1 := by
    have hpi : Real.pi ≠ 0 := Real.pi_ne_zero
    have hPne : orbitalPeriod ≠ 0 := hP.ne'
    simp only [timeConversionFactor]
    field_simp
    ring
  have hidx : pointIndex s.orbit.length orbitalPeriod
      (t + orbitalPeriod * 86400 / (300 * (2 * Real.pi))) =
      pointIndex s.orbit.length orbitalPeriod t := by
    unfold pointIndex
    have hexp : (t + orbitalPeriod * 86400 / (300 * (2 * Real.pi))) *
        timeConversionFactor orbitalPeriod =
        t * timeConversionFactor orbitalPeriod + 1 := by
      rw [add_mul, hone]
    rw [hexp, jsMod_one_of_nonneg _ (by linarith), jsMod_one_of_nonneg _ hphase]
    have hfr := Int.fract_add_int (t * timeConversionFactor orbitalPeriod) 1
    push_cast at hfr
    rw [hfr]
  refine ⟨hidx, ?_⟩
  rw [updateSystemPosition_position, updateSystemPosition_position, hidx]

/-- Witness for C5 on the concrete demo system at period 1, time 0. -/
theorem updatePosition_periodic_witness :
    (0:ℝ) < 1 ∧ (0:ℝ) ≤ 0 ∧
      (pointIndex sDemo.orbit.length 1 ((0:ℝ) + 1 * 86400 / (300 * (2 * Real.pi))) =
        pointIndex sDemo.orbit.length 1 0 ∧
       (updateSystemPosition sDemo 1 1 ((0:ℝ) + 1 * 86400 / (300 * (2 * Real.pi)))).planet.position =
        (updateSystemPosition sDemo 1 1 0).planet.position) :=
  ⟨zero_lt_one, le_refl 0, updatePosition_periodic sDemo 1 1 0 zero_lt_one (le_refl 0)⟩

/-- Claim C6: for a ringless body each update adds exactly
(2π / rotationPeriod) · 0.1 · (π/180) to the spin angle; the spin angle
strictly increases per call when the rotation period is positive and strictly
decreases when it is negative (retrograde). -/
theorem spin_ringless (s : SystemState) (orbitalPeriod rotationPeriod t : ℝ)
    (hring : s.ring = none) :
    (updateSystemPosition s orbitalPeriod rotationPeriod t).planet.rotY =
      s.planet.rotY + 2 * Real.pi / rotationPeriod * 0.1 * (Real.pi / 180) ∧
    (0 < rotationPeriod →
      s.planet.rotY < (updateSystemPosition s orbitalPeriod rotationPeriod t).planet.rotY) ∧
    (rotationPeriod < 0 →
      (updateSystemPosition s orbitalPeriod rotationPeriod t).planet.rotY < s.planet.rotY) := by
  have hpi := Real.pi_pos
  have hupd : (updateSystemPosition s orbitalPeriod rotationPeriod t).planet.rotY =
      s.planet.rotY + 2 * Real.pi / rotationPeriod * 0.1 * (Real.pi / 180) := by
    simp [updateSystemPosition, hring]
  refine ⟨hupd, ?_, ?_⟩
  · intro h
    rw [hupd]
    have hinc : 0 < 2 * Real.pi / rotationPeriod * 0.1 * (Real.pi / 180) := by
      have h1 : 0 < 2 * Real.pi / rotationPeriod := div_pos (by linarith) h
      have h2 : (0:ℝ) < 0.1 := by norm_num
      have h3 : 0 < Real.pi / 180 := by positivity
      exact mul_pos (mul_pos h1 h2) h3
    linarith
  · intro h
    rw [hupd]
    have h1 : 2 * Real.pi / rotationPeriod < 0 := div_neg_of_pos_of_neg (by linarith) h
    have hinc : 2 * Real.pi / rotationPeriod * 0.1 * (Real.pi / 180) < 0 := by
      have h3 : 0 < Real.pi / 180 := by positivity
      nlinarith
    linarith

/-- Witness for C6 on the concrete ringless demo system with rotation period 1. -/
theorem spin_ringless_witness :
    sDemo.ring = none ∧
      ((updateSystemPosition sDemo 1 1 0).planet.rotY =
        sDemo.planet.rotY + 2 * Real.pi / 1 * 0.1 * (Real.pi / 180) ∧
       ((0:ℝ) < 1 → sDemo.planet.rotY < (updateSystemPosition sDemo 1 1 0).planet.rotY) ∧
       ((1:ℝ) < 0 → (updateSystemPosition sDemo 1 1 0).planet.rotY < sDemo.planet.rotY)) :=
  ⟨rfl, spin_ringless sDemo 1 1 0 rfl⟩

/-- Claim C7: per update the accumulated planet spin advances by exactly two
increments of (2π / rotationPeriod) · 0.1 · (π/180) when the body owns a ring,
and by exactly one increment when it does not. -/
theorem spin_increment_per_update (s : SystemState) (orbitalPeriod rotationPeriod t : ℝ) :
    (updateSystemPosition s orbitalPeriod rotationPeriod t).planet.rotY =
      s.planet.rotY + (if s.ring.isSome then 2 else 1) *
        (2 * Real.pi / rotationPeriod * 0.1 * (Real.pi / 180)) := by
  cases h : s.ring <;> simp [updateSystemPosition, h] <;> ring

/-- Claim C8: after an update, a ringed system's ring position equals its
body's position. -/
theorem ring_position_mirrors (s : SystemState) (orbitalPeriod rotationPeriod t : ℝ)
    (r : MeshState) (hring : s.ring = some r) :
    Option.map MeshState.position (updateSystemPosition s orbitalPeriod rotationPeriod t).ring =
      some (updateSystemPosition s orbitalPeriod rotationPeriod t).planet.position := by
  simp [updateSystemPosition, hring]

/-- Witness for C8 on the concrete ringed demo system. -/
theorem ring_position_mirrors_witness :
    sRingDemo.ring = some mDemo ∧
      Option.map MeshState.position (updateSystemPosition sRingDemo 1 1 0).ring =
        some (updateSystemPosition sRingDemo 1 1 0).planet.position :=
  ⟨rfl, ring_position_mirrors sRingDemo 1 1 0 mDemo rfl⟩

/-- Claim C9: contrary to the claim, eccentricity ≥ 1 is not rejected: the
update-free construction path returns a point list for e = 2 with no error,
while the stored semi-minor axis is NaN (`none`), since Math.sqrt(1 − e·e)
receives a negative argument, so the returned path's coordinates are NaN. -/
theorem invalid_eccentricity_not_rejected :
    createOrbitChecked 1 2 0 0 0 4 = Except.ok (createOrbit 1 2 0 0 0 4) ∧
    semiminor 1 2 = none := by
  refine ⟨rfl, ?_⟩
  norm_num [semiminor, jsSqrt]

/-- Claim C10: an update modifies only the body position, the body spin
(y-rotation) angle, and the ring position: the orbit point sequence, the
body's x- and z-rotations, the ring's rotation angles, and ring presence are
all unchanged. -/
theorem update_modifies_only (s : SystemState) (orbitalPeriod rotationPeriod t : ℝ) :
    (updateSystemPosition s orbitalPeriod rotationPeriod t).orbit = s.orbit ∧
    (updateSystemPosition s orbitalPeriod rotationPeriod t).planet.rotX = s.planet.rotX ∧
    (updateSystemPosition s orbitalPeriod rotationPeriod t).planet.rotZ = s.planet.rotZ ∧
    Option.map MeshState.rotX (updateSystemPosition s orbitalPeriod rotationPeriod t).ring =
      Option.map MeshState.rotX s.ring ∧
    Option.map MeshState.rotY (updateSystemPosition s orbitalPeriod rotationPeriod t).ring =
      Option.map MeshState.rotY s.ring ∧
    Option.map MeshState.rotZ (updateSystemPosition s orbitalPeriod rotationPeriod t).ring =
      Option.map MeshState.rotZ s.ring ∧
    (updateSystemPosition s orbitalPeriod rotationPeriod t).ring.isSome = s.ring.isSome := by
  cases h : s.ring <;> simp [updateSystemPosition, h]


end SpaceSim
